import Mathlib

/-!
Verification development for the libsensors-cpp library (sensors-c++), a
class-based C++ facade over libsensors.  The definitions below are a shallow
embedding of `src/sensors.cpp` and `src/error.cpp`: C++ strings become lists
of characters, the opaque libsensors boundary API becomes an explicit `World`
value (the chips, features and subfeatures the library would enumerate) plus
an `Env` of boundary functions, exceptions become `Except`, and the global
libsensors handle becomes an explicit state machine with an event trace.
-/

namespace Sensors

/-- C++ `std::string`, modelled as its character sequence. -/
abbrev Str := List Char

/-- Convenience conversion for writing `Str` literals. -/
def str (s : String) : Str := s.toList

/-! ### Strings and filesystem paths

`std::filesystem::path::filename`, `parent_path` and `has_filename`, and
`std::string::rfind`, as used by the lookup code in `src/sensors.cpp`.
-/

/-- Split a character list on a separator character; always returns at least
one (possibly empty) chunk, like splitting a string on `/`. -/
def splitOnChar (sep : Char) : Str → List Str
  | [] => [[]]
  | c :: rest =>
    if c = sep then [] :: splitOnChar sep rest
    else
      match splitOnChar sep rest with
      | [] => [[c]]
      | r :: rs => (c :: r) :: rs

/-- Join chunks with a separator character; inverse of `splitOnChar`. -/
def joinWithChar (sep : Char) : List Str → Str
  | [] => []
  | [x] => x
  | x :: xs => x ++ sep :: joinWithChar sep xs

/-- `std::filesystem::path::filename().string()`: the component after the
last directory separator (empty for paths ending in `/`). -/
def pathFilename (p : Str) : Str := (splitOnChar '/' p).getLastD []

/-- `std::filesystem::path::parent_path().string()`: everything before the
last directory separator (`/` when the path is a single root-level name). -/
def pathParent (p : Str) : Str :=
  let parts := (splitOnChar '/' p).dropLast
  if parts = [[]] then ['/'] else joinWithChar '/' parts

/-- `std::string::rfind(c)`: index of the last occurrence of a character. -/
def rfindChar (sep : Char) : Str → Option Nat
  | [] => none
  | c :: rest =>
    match rfindChar sep rest with
    | some i => some (i + 1)
    | none => if c = sep then some 0 else none

/-- The feature-name candidate extracted from a filename by
`_sensors_impl<feature>::impl::find(full_path)`: the text before the last
underscore, or the whole filename when it has no underscore
(`pos < npos ? filename.substr(0, pos) : filename`). -/
def featNameOf (filename : Str) : Str :=
  match rfindChar '_' filename with
  | some pos => filename.take pos
  | none => filename

/-! ### Error model (`include/sensors-c++/error.h`, `src/error.cpp`)

`sensors::error` subtypes carrying a message; `error::error(int)` builds the
message with the boundary API's `sensors_strerror`.
-/

/-- The closed taxonomy of sensors-c++ exceptions, each carrying its
`std::runtime_error` message. -/
inductive SError
  | initError (msg : Str)
  | ioError (msg : Str)
  | parseError (msg : Str)
deriving DecidableEq, Repr

/-- Equality of `Except` results is decidable componentwise (used to
evaluate lookup outcomes on concrete worlds). -/
instance {ε α : Type} [DecidableEq ε] [DecidableEq α] :
    DecidableEq (Except ε α) := fun x y =>
  match x, y with
  | .ok a, .ok b =>
    if h : a = b then .isTrue (by rw [h])
    else .isFalse (fun hc => h (Except.ok.inj hc))
  | .error a, .error b =>
    if h : a = b then .isTrue (by rw [h])
    else .isFalse (fun hc => h (Except.error.inj hc))
  | .ok _, .error _ => .isFalse (fun hc => Except.noConfusion hc)
  | .error _, .ok _ => .isFalse (fun hc => Except.noConfusion hc)

/-! ### The boundary API's data (`World`)

A `World` is the data the opaque libsensors boundary API would report through
its cursor-based enumeration primitives: detected chips, each with its
features, each with its subfeatures.  Field names follow the native
`sensors_chip_name` / `sensors_feature` / `sensors_subfeature` records.
-/

/-- A native `sensors_bus_id` record. -/
structure SBusId where
  typeCode : Int
  nr : Int
deriving DecidableEq, Repr

/-- A native `sensors_subfeature` record. -/
structure SSubfeature where
  name : Str
  number : Int
  typeCode : Int
  flags : Nat
deriving DecidableEq, Repr

/-- A native `sensors_feature` record together with its subfeatures (the
result of `sensors_get_all_subfeatures` scoped to it). -/
structure SFeature where
  name : Str
  number : Int
  typeCode : Int
  subfeatures : List SSubfeature
deriving DecidableEq, Repr

/-- A native `sensors_chip_name` record together with its features (the
result of `sensors_get_features` scoped to it). -/
structure SChipName where
  prefixStr : Str
  path : Str
  addr : Int
  bus : SBusId
  features : List SFeature
deriving DecidableEq, Repr

/-- The chips reported by `sensors_get_detected_chips`, in enumeration
order. -/
structure World where
  chips : List SChipName
deriving DecidableEq, Repr

/-! ### Lookup algorithms (the `impl::find` statics in `src/sensors.cpp`)

These are the pure hearts of the three `find` functions; the global-handle
side effects are modelled separately below.
-/

/-- `_sensors_impl<chip_name>::impl::find(path)`: the first enumerated chip
whose own path occurs at position 0 of the supplied path
(`path.rfind(name->path, 0) == 0`), else `parse_error`. -/
def findChipRec (w : World) (path : Str) : Except SError SChipName :=
  match w.chips.find? (fun c => c.path.isPrefixOf path) with
  | some c => .ok c
  | none => .error (.parseError (str "No chip found at " ++ path))

/-- `_sensors_impl<feature>::impl::find(chip_path, feature_name)`: resolve
the chip by prefix lookup, then return the first enumerated feature whose
name equals `feature_name`, else `parse_error` naming the chip's prefix. -/
def findFeatureRec (w : World) (chipPath featureName : Str) :
    Except SError (SChipName × SFeature) :=
  match findChipRec w chipPath with
  | .error e => .error e
  | .ok chip =>
    match chip.features.find? (fun f => decide (f.name = featureName)) with
    | some f => .ok (chip, f)
    | none =>
      .error (.parseError (str "Feature " ++ featureName ++
        str " not found on chip " ++ chip.prefixStr))

/-- `_sensors_impl<feature>::impl::find(full_path)`: split the filename at
its last underscore to obtain the feature-name candidate, use the parent
directory as chip path, and delegate. -/
def findFeatureFullRec (w : World) (fullPath : Str) :
    Except SError (SChipName × SFeature) :=
  let filename := pathFilename fullPath
  let featName := featNameOf filename
  findFeatureRec w (pathParent fullPath) featName

/-- `_sensors_impl<subfeature>::impl::find(full_path)`: require a non-empty
filename, resolve the parent feature from the same full path, then return
the first subfeature of that feature whose name equals the full filename,
else `parse_error`. -/
def findSubfeatureRec (w : World) (fullPath : Str) :
    Except SError (SChipName × SFeature × SSubfeature) :=
  if pathFilename fullPath = [] then
    .error (.parseError (str "Path does not contain filename: " ++ fullPath))
  else
    let subName := pathFilename fullPath
    match findFeatureFullRec w fullPath with
    | .error e => .error e
    | .ok (chip, feat) =>
      match feat.subfeatures.find? (fun s => decide (s.name = subName)) with
      | some s => .ok (chip, feat, s)
      | none => .error (.parseError (str "Subfeature not found: " ++ subName))

/-! ### Classification enums (`include/sensors-c++/sensors.h`)

The scoped C++ enums `bus_type`, `feature_type` and `subfeature_type`, and
the native integer codes of the boundary API (`<sensors/sensors.h>`) that
the accessors translate from.
-/

/-- `enum class bus_type`. -/
inductive bus_type
  | any | i2c | isa | pci | spi | virt | acpi | hid | mdio | scsi
deriving DecidableEq, Repr

/-- `enum class feature_type` (`in` is a Lean keyword, hence `in_`). -/
inductive feature_type
  | in_ | fan | temp | power | energy | current | humidity | vid
  | intrusion | beep | unknown
deriving DecidableEq, Repr

/-- `enum class subfeature_type`. -/
inductive subfeature_type
  | input | input_lowest | input_highest | cap | cap_hyst | cap_alarm
  | min | min_hyst | min_alarm | max | max_hyst | max_alarm
  | average | lowest | highest | average_lowest | average_highest
  | average_interval | crit | crit_hyst | crit_alarm
  | l_crit | l_crit_hyst | l_crit_alarm | alarm | fault
  | emergency | emergency_hyst | emergency_alarm
  | type | offset | div | beep | pulses | vid | enable | unknown
deriving DecidableEq, Repr

/-! Native bus-type constants from `<sensors/sensors.h>`. -/

def SENSORS_BUS_TYPE_ANY : Int := -1

def SENSORS_BUS_TYPE_I2C : Int := 0

def SENSORS_BUS_TYPE_ISA : Int := 1

def SENSORS_BUS_TYPE_PCI : Int := 2

def SENSORS_BUS_TYPE_SPI : Int := 3

def SENSORS_BUS_TYPE_VIRTUAL : Int := 4

def SENSORS_BUS_TYPE_ACPI : Int := 5

def SENSORS_BUS_TYPE_HID : Int := 6

def SENSORS_BUS_TYPE_MDIO : Int := 7

def SENSORS_BUS_TYPE_SCSI : Int := 8

/-! Native feature-type constants (`enum sensors_feature_type`). -/

def SENSORS_FEATURE_IN : Int := 0x00

def SENSORS_FEATURE_FAN : Int := 0x01

def SENSORS_FEATURE_TEMP : Int := 0x02

def SENSORS_FEATURE_POWER : Int := 0x03

def SENSORS_FEATURE_ENERGY : Int := 0x04

def SENSORS_FEATURE_CURR : Int := 0x05

def SENSORS_FEATURE_HUMIDITY : Int := 0x06

def SENSORS_FEATURE_VID : Int := 0x10

def SENSORS_FEATURE_INTRUSION : Int := 0x11

def SENSORS_FEATURE_BEEP_ENABLE : Int := 0x18

/-! Native subfeature-type constants (`enum sensors_subfeature_type`, laid
out as `(feature_type << 8) | index`, alarm block at `| 0x80`). -/

def SENSORS_SUBFEATURE_IN_INPUT : Int := 0x000

def SENSORS_SUBFEATURE_IN_MIN : Int := 0x001

def SENSORS_SUBFEATURE_IN_MAX : Int := 0x002

def SENSORS_SUBFEATURE_IN_LCRIT : Int := 0x003

def SENSORS_SUBFEATURE_IN_CRIT : Int := 0x004

def SENSORS_SUBFEATURE_IN_AVERAGE : Int := 0x005

def SENSORS_SUBFEATURE_IN_LOWEST : Int := 0x006

def SENSORS_SUBFEATURE_IN_HIGHEST : Int := 0x007

def SENSORS_SUBFEATURE_IN_ALARM : Int := 0x080

def SENSORS_SUBFEATURE_IN_MIN_ALARM : Int := 0x081

def SENSORS_SUBFEATURE_IN_MAX_ALARM : Int := 0x082

def SENSORS_SUBFEATURE_IN_BEEP : Int := 0x083

def SENSORS_SUBFEATURE_IN_LCRIT_ALARM : Int := 0x084

def SENSORS_SUBFEATURE_IN_CRIT_ALARM : Int := 0x085

def SENSORS_SUBFEATURE_FAN_INPUT : Int := 0x100

def SENSORS_SUBFEATURE_FAN_MIN : Int := 0x101

def SENSORS_SUBFEATURE_FAN_MAX : Int := 0x102

def SENSORS_SUBFEATURE_FAN_ALARM : Int := 0x180

def SENSORS_SUBFEATURE_FAN_FAULT : Int := 0x181

def SENSORS_SUBFEATURE_FAN_DIV : Int := 0x182

def SENSORS_SUBFEATURE_FAN_BEEP : Int := 0x183

def SENSORS_SUBFEATURE_FAN_PULSES : Int := 0x184

def SENSORS_SUBFEATURE_FAN_MIN_ALARM : Int := 0x185

def SENSORS_SUBFEATURE_FAN_MAX_ALARM : Int := 0x186

def SENSORS_SUBFEATURE_TEMP_INPUT : Int := 0x200

def SENSORS_SUBFEATURE_TEMP_MAX : Int := 0x201

def SENSORS_SUBFEATURE_TEMP_MAX_HYST : Int := 0x202

def SENSORS_SUBFEATURE_TEMP_MIN : Int := 0x203

def SENSORS_SUBFEATURE_TEMP_CRIT : Int := 0x204

def SENSORS_SUBFEATURE_TEMP_CRIT_HYST : Int := 0x205

def SENSORS_SUBFEATURE_TEMP_LCRIT : Int := 0x206

def SENSORS_SUBFEATURE_TEMP_EMERGENCY : Int := 0x207

def SENSORS_SUBFEATURE_TEMP_EMERGENCY_HYST : Int := 0x208

def SENSORS_SUBFEATURE_TEMP_LOWEST : Int := 0x209

def SENSORS_SUBFEATURE_TEMP_HIGHEST : Int := 0x20a

def SENSORS_SUBFEATURE_TEMP_MIN_HYST : Int := 0x20b

def SENSORS_SUBFEATURE_TEMP_LCRIT_HYST : Int := 0x20c

def SENSORS_SUBFEATURE_TEMP_ALARM : Int := 0x280

def SENSORS_SUBFEATURE_TEMP_MAX_ALARM : Int := 0x281

def SENSORS_SUBFEATURE_TEMP_MIN_ALARM : Int := 0x282

def SENSORS_SUBFEATURE_TEMP_CRIT_ALARM : Int := 0x283

def SENSORS_SUBFEATURE_TEMP_FAULT : Int := 0x284

def SENSORS_SUBFEATURE_TEMP_TYPE : Int := 0x285

def SENSORS_SUBFEATURE_TEMP_OFFSET : Int := 0x286

def SENSORS_SUBFEATURE_TEMP_BEEP : Int := 0x287

def SENSORS_SUBFEATURE_TEMP_EMERGENCY_ALARM : Int := 0x288

def SENSORS_SUBFEATURE_TEMP_LCRIT_ALARM : Int := 0x289

def SENSORS_SUBFEATURE_POWER_AVERAGE : Int := 0x300

def SENSORS_SUBFEATURE_POWER_AVERAGE_HIGHEST : Int := 0x301

def SENSORS_SUBFEATURE_POWER_AVERAGE_LOWEST : Int := 0x302

def SENSORS_SUBFEATURE_POWER_INPUT : Int := 0x303

def SENSORS_SUBFEATURE_POWER_INPUT_HIGHEST : Int := 0x304

def SENSORS_SUBFEATURE_POWER_INPUT_LOWEST : Int := 0x305

def SENSORS_SUBFEATURE_POWER_CAP : Int := 0x306

def SENSORS_SUBFEATURE_POWER_CAP_HYST : Int := 0x307

def SENSORS_SUBFEATURE_POWER_MAX : Int := 0x308

def SENSORS_SUBFEATURE_POWER_CRIT : Int := 0x309

def SENSORS_SUBFEATURE_POWER_MIN : Int := 0x30a

def SENSORS_SUBFEATURE_POWER_LCRIT : Int := 0x30b

def SENSORS_SUBFEATURE_POWER_AVERAGE_INTERVAL : Int := 0x380

def SENSORS_SUBFEATURE_POWER_ALARM : Int := 0x381

def SENSORS_SUBFEATURE_POWER_CAP_ALARM : Int := 0x382

def SENSORS_SUBFEATURE_POWER_MAX_ALARM : Int := 0x383

def SENSORS_SUBFEATURE_POWER_CRIT_ALARM : Int := 0x384

def SENSORS_SUBFEATURE_POWER_MIN_ALARM : Int := 0x385

def SENSORS_SUBFEATURE_POWER_LCRIT_ALARM : Int := 0x386

def SENSORS_SUBFEATURE_ENERGY_INPUT : Int := 0x400

def SENSORS_SUBFEATURE_CURR_INPUT : Int := 0x500

def SENSORS_SUBFEATURE_CURR_MIN : Int := 0x501

def SENSORS_SUBFEATURE_CURR_MAX : Int := 0x502

def SENSORS_SUBFEATURE_CURR_LCRIT : Int := 0x503

def SENSORS_SUBFEATURE_CURR_CRIT : Int := 0x504

def SENSORS_SUBFEATURE_CURR_AVERAGE : Int := 0x505

def SENSORS_SUBFEATURE_CURR_LOWEST : Int := 0x506

def SENSORS_SUBFEATURE_CURR_HIGHEST : Int := 0x507

def SENSORS_SUBFEATURE_CURR_ALARM : Int := 0x580

def SENSORS_SUBFEATURE_CURR_MIN_ALARM : Int := 0x581

def SENSORS_SUBFEATURE_CURR_MAX_ALARM : Int := 0x582

def SENSORS_SUBFEATURE_CURR_BEEP : Int := 0x583

def SENSORS_SUBFEATURE_CURR_LCRIT_ALARM : Int := 0x584

def SENSORS_SUBFEATURE_CURR_CRIT_ALARM : Int := 0x585

def SENSORS_SUBFEATURE_HUMIDITY_INPUT : Int := 0x600

def SENSORS_SUBFEATURE_VID : Int := 0x1000

def SENSORS_SUBFEATURE_INTRUSION_ALARM : Int := 0x1180

def SENSORS_SUBFEATURE_INTRUSION_BEEP : Int := 0x1181

def SENSORS_SUBFEATURE_BEEP_ENABLE : Int := 0x1800

/-! ### Type-code translation (the `type()` switches in `src/sensors.cpp`)

Each C++ `switch` becomes a chain of equality tests in source case order;
the final branch is the `default:` fallback.
-/

/-- A C++ `switch` over an integer with a `default:` branch: test the case
labels in order and return the matching label's result, else the default.
Each row of `tbl` is one case label with the result its (possibly shared)
branch returns. -/
def chainLookup {β : Type} (tbl : List (Int × β)) (dflt : β) (code : Int) : β :=
  match tbl with
  | [] => dflt
  | (c, v) :: rest => if code = c then v else chainLookup rest dflt code

/-- The case labels of the `bus_id::type()` switch with their results. -/
def busCaseTable : List (Int × bus_type) :=
  [(SENSORS_BUS_TYPE_I2C, .i2c), (SENSORS_BUS_TYPE_ISA, .isa),
   (SENSORS_BUS_TYPE_PCI, .pci), (SENSORS_BUS_TYPE_SPI, .spi),
   (SENSORS_BUS_TYPE_VIRTUAL, .virt), (SENSORS_BUS_TYPE_ACPI, .acpi),
   (SENSORS_BUS_TYPE_HID, .hid), ( SENSORS_BUS_TYPE_MDIO, .mdio),
   (SENSORS_BUS_TYPE_SCSI, .scsi)]

/-- `bus_id::type()`: the switch with `default: return bus_type::any`. -/
def bus_type_of (code : Int) : bus_type := chainLookup busCaseTable .any code

/-- The case labels of the `feature::type()` switch with their results. -/
def featureCaseTable : List (Int × feature_type) :=
  [(SENSORS_FEATURE_IN, .in_), (SENSORS_FEATURE_FAN, .fan),
   (SENSORS_FEATURE_TEMP, .temp), (SENSORS_FEATURE_POWER, .power),
   (SENSORS_FEATURE_ENERGY, .energy), (SENSORS_FEATURE_CURR, .current),
   (SENSORS_FEATURE_HUMIDITY, .humidity), (SENSORS_FEATURE_VID, .vid),
   (SENSORS_FEATURE_INTRUSION, .intrusion),
   (SENSORS_FEATURE_BEEP_ENABLE, .beep)]

/-- `feature::type()`: the switch with `default: return
feature_type::unknown`. -/
def feature_type_of (code : Int) : feature_type :=
  chainLookup featureCaseTable .unknown code

set_option maxHeartbeats 1600000 in
/-- The case labels of the `subfeature::type()` switch with their results
(grouped case labels become successive rows with the same result). -/
def subfeatureCaseTable : List (Int × subfeature_type) :=
  [(SENSORS_SUBFEATURE_IN_INPUT, .input),
   (SENSORS_SUBFEATURE_FAN_INPUT, .input),
   (SENSORS_SUBFEATURE_TEMP_INPUT, .input),
   (SENSORS_SUBFEATURE_POWER_INPUT, .input),
   (SENSORS_SUBFEATURE_ENERGY_INPUT, .input),
   (SENSORS_SUBFEATURE_CURR_INPUT, .input),
   (SENSORS_SUBFEATURE_HUMIDITY_INPUT, .input),
   (SENSORS_SUBFEATURE_POWER_INPUT_LOWEST, .input_lowest),
   (SENSORS_SUBFEATURE_POWER_INPUT_HIGHEST, .input_highest),
   (SENSORS_SUBFEATURE_POWER_CAP, .cap),
   (SENSORS_SUBFEATURE_POWER_CAP_ALARM, .cap_alarm),
   (SENSORS_SUBFEATURE_POWER_CAP_HYST, .cap_hyst),
   (SENSORS_SUBFEATURE_IN_MIN, .min),
   (SENSORS_SUBFEATURE_FAN_MIN, .min),
   (SENSORS_SUBFEATURE_TEMP_MIN, .min),
   (SENSORS_SUBFEATURE_POWER_MIN, .min),
   (SENSORS_SUBFEATURE_CURR_MIN, .min),
   (SENSORS_SUBFEATURE_IN_MIN_ALARM, .min_alarm),
   (SENSORS_SUBFEATURE_FAN_MIN_ALARM, .min_alarm),
   (SENSORS_SUBFEATURE_TEMP_MIN_ALARM, .min_alarm),
   (SENSORS_SUBFEATURE_POWER_MIN_ALARM, .min_alarm),
   (SENSORS_SUBFEATURE_CURR_MIN_ALARM, .min_alarm),
   (SENSORS_SUBFEATURE_TEMP_MIN_HYST, .min_hyst),
   (SENSORS_SUBFEATURE_IN_MAX, .max),
   (SENSORS_SUBFEATURE_FAN_MAX, .max),
   (SENSORS_SUBFEATURE_TEMP_MAX, .max),
   (SENSORS_SUBFEATURE_POWER_MAX, .max),
   (SENSORS_SUBFEATURE_CURR_MAX, .max),
   (SENSORS_SUBFEATURE_IN_MAX_ALARM, .max_alarm),
   (SENSORS_SUBFEATURE_FAN_MAX_ALARM, .max_alarm),
   (SENSORS_SUBFEATURE_TEMP_MAX_ALARM, .max_alarm),
   (SENSORS_SUBFEATURE_POWER_MAX_ALARM, .max_alarm),
   (SENSORS_SUBFEATURE_CURR_MAX_ALARM, .max_alarm),
   (SENSORS_SUBFEATURE_TEMP_MAX_HYST, .max_hyst),
   (SENSORS_SUBFEATURE_IN_LOWEST, .lowest),
   (SENSORS_SUBFEATURE_TEMP_LOWEST, .lowest),
   (SENSORS_SUBFEATURE_CURR_LOWEST, .lowest),
   (SENSORS_SUBFEATURE_IN_HIGHEST, .highest),
   (SENSORS_SUBFEATURE_TEMP_HIGHEST, .highest),
   (SENSORS_SUBFEATURE_CURR_HIGHEST, .highest),
   (SENSORS_SUBFEATURE_IN_AVERAGE, .average),
   (SENSORS_SUBFEATURE_POWER_AVERAGE, .average),
   (SENSORS_SUBFEATURE_CURR_AVERAGE, .average),
   (SENSORS_SUBFEATURE_POWER_AVERAGE_LOWEST, .average_lowest),
   (SENSORS_SUBFEATURE_POWER_AVERAGE_HIGHEST, .average_highest),
   (SENSORS_SUBFEATURE_POWER_AVERAGE_INTERVAL, .average_interval),
   (SENSORS_SUBFEATURE_IN_LCRIT, .l_crit),
   (SENSORS_SUBFEATURE_TEMP_LCRIT, .l_crit),
   (SENSORS_SUBFEATURE_POWER_LCRIT, .l_crit),
   (SENSORS_SUBFEATURE_CURR_LCRIT, .l_crit),
   (SENSORS_SUBFEATURE_IN_LCRIT_ALARM, .l_crit_alarm),
   (SENSORS_SUBFEATURE_TEMP_LCRIT_ALARM, .l_crit_alarm),
   (SENSORS_SUBFEATURE_POWER_LCRIT_ALARM, .l_crit_alarm),
   (SENSORS_SUBFEATURE_CURR_LCRIT_ALARM, .l_crit_alarm),
   (SENSORS_SUBFEATURE_TEMP_LCRIT_HYST, .l_crit_hyst),
   (SENSORS_SUBFEATURE_IN_CRIT, .crit),
   (SENSORS_SUBFEATURE_TEMP_CRIT, .crit),
   (SENSORS_SUBFEATURE_POWER_CRIT, .crit),
   (SENSORS_SUBFEATURE_CURR_CRIT, .crit),
   (SENSORS_SUBFEATURE_IN_CRIT_ALARM, .crit_alarm),
   (SENSORS_SUBFEATURE_TEMP_CRIT_ALARM, .crit_alarm),
   (SENSORS_SUBFEATURE_POWER_CRIT_ALARM, .crit_alarm),
   (SENSORS_SUBFEATURE_CURR_CRIT_ALARM, .crit_alarm),
   (SENSORS_SUBFEATURE_TEMP_CRIT_HYST, .crit_hyst),
   (SENSORS_SUBFEATURE_IN_BEEP, .beep),
   (SENSORS_SUBFEATURE_FAN_BEEP, .beep),
   (SENSORS_SUBFEATURE_TEMP_BEEP, .beep),
   (SENSORS_SUBFEATURE_CURR_BEEP, .beep),
   (SENSORS_SUBFEATURE_INTRUSION_BEEP, .beep),
   (SENSORS_SUBFEATURE_FAN_DIV, .div),
   (SENSORS_SUBFEATURE_FAN_PULSES, .pulses),
   (SENSORS_SUBFEATURE_BEEP_ENABLE, .enable),
   (SENSORS_SUBFEATURE_TEMP_TYPE, .type),
   (SENSORS_SUBFEATURE_TEMP_OFFSET, .offset),
   (SENSORS_SUBFEATURE_VID, .vid),
   (SENSORS_SUBFEATURE_IN_ALARM, .alarm),
   (SENSORS_SUBFEATURE_FAN_ALARM, .alarm),
   (SENSORS_SUBFEATURE_TEMP_ALARM, .alarm),
   (SENSORS_SUBFEATURE_POWER_ALARM, .alarm),
   (SENSORS_SUBFEATURE_CURR_ALARM, .alarm),
   (SENSORS_SUBFEATURE_INTRUSION_ALARM, .alarm),
   (SENSORS_SUBFEATURE_FAN_FAULT, .fault),
   (SENSORS_SUBFEATURE_TEMP_FAULT, .fault),
   (SENSORS_SUBFEATURE_TEMP_EMERGENCY, .emergency),
   (SENSORS_SUBFEATURE_TEMP_EMERGENCY_ALARM, .emergency_alarm),
   (SENSORS_SUBFEATURE_TEMP_EMERGENCY_HYST, .emergency_hyst)]

/-- `subfeature::type()`: the switch with `default: return
subfeature_type::unknown`. -/
def subfeature_type_of (code : Int) : subfeature_type :=
  chainLookup subfeatureCaseTable .unknown code

/-- The case labels of the `bus_id::type()` switch. -/
def busRecognizedCodes : List Int := busCaseTable.map Prod.fst

/-- The case labels of the `feature::type()` switch. -/
def featureRecognizedCodes : List Int := featureCaseTable.map Prod.fst

/-- The case labels of the `subfeature::type()` switch. -/
def subfeatureRecognizedCodes : List Int := subfeatureCaseTable.map Prod.fst

/-! ### Entity classes

Each `_sensors_impl<T>` holds a `shared_ptr` to an immutable `impl`; the
`impl` is the native record plus, for `feature` and `subfeature`, the owned
copy of the parent entity.  The embedding stores the impl contents directly:
`m_impl` is the wrapped native record and `m_chip` / `m_feature` the
parent-entity member of the impl.
-/

/-- `sensors::bus_id`. -/
structure bus_id where
  m_impl : SBusId
deriving DecidableEq, Repr

/-- `sensors::chip_name`. -/
structure chip_name where
  m_impl : SChipName
deriving DecidableEq, Repr

/-- `sensors::feature` (its impl also carries `m_chip`). -/
structure feature where
  m_chip : chip_name
  m_impl : SFeature
deriving DecidableEq, Repr

/-- `sensors::subfeature` (its impl also carries `m_feature`). -/
structure subfeature where
  m_feature : feature
  m_impl : SSubfeature
deriving DecidableEq, Repr

/-- The boundary-API calls an operation may perform; copies are observed to
perform none. -/
inductive BCall
  | getDetectedChips | getFeatures | getAllSubfeatures
  | getValue | setValue | getLabel | snprintfChipName | getAdapterName
deriving DecidableEq, Repr

/-- `bus_id::type()`. -/
def bus_id.type (b : bus_id) : bus_type := bus_type_of b.m_impl.typeCode

/-- `bus_id::nr()`. -/
def bus_id.nr (b : bus_id) : Int := b.m_impl.nr

/-- `chip_name::address()`. -/
def chip_name.address (c : chip_name) : Int := c.m_impl.addr

/-- `chip_name::bus()`. -/
def chip_name.bus (c : chip_name) : bus_id := ⟨c.m_impl.bus⟩

/-- `chip_name::prefix()`. -/
def chip_name.prefixStr (c : chip_name) : Str := c.m_impl.prefixStr

/-- `chip_name::path()`. -/
def chip_name.path (c : chip_name) : Str := c.m_impl.path

/-- `chip_name::features()`: enumerate `sensors_get_features`, wrapping each
record with a copy of this chip as parent. -/
def chip_name.features (c : chip_name) : List feature :=
  c.m_impl.features.map (fun f => ⟨c, f⟩)

/-- `feature::chip()`. -/
def feature.chip (f : feature) : chip_name := f.m_chip

/-- `feature::name()`. -/
def feature.name (f : feature) : Str := f.m_impl.name

/-- `feature::number()`. -/
def feature.number (f : feature) : Int := f.m_impl.number

/-- `feature::type()`. -/
def feature.type (f : feature) : feature_type := feature_type_of f.m_impl.typeCode

/-- `feature::subfeatures()`: enumerate `sensors_get_all_subfeatures`,
wrapping each record with a copy of this feature as parent. -/
def feature.subfeatures (f : feature) : List subfeature :=
  f.m_impl.subfeatures.map (fun s => ⟨f, s⟩)

/-- `subfeature::feature()`. -/
def subfeature.feature (s : subfeature) : feature := s.m_feature

/-- `subfeature::name()`. -/
def subfeature.name (s : subfeature) : Str := s.m_impl.name

/-- `subfeature::number()`. -/
def subfeature.number (s : subfeature) : Int := s.m_impl.number

/-- `subfeature::type()`. -/
def subfeature.type (s : subfeature) : subfeature_type :=
  subfeature_type_of s.m_impl.typeCode

/-- `feature::subfeature(type)`: `std::find_if` over `subfeatures()` on
`sf.type() == type`, returning the first hit or an empty optional. -/
def feature.subfeature (f : feature) (t : subfeature_type) : Option subfeature :=
  f.subfeatures.find? (fun sf => decide (sf.type = t))

/-- The implicitly defaulted copy constructor of `chip_name`: it copies the
`shared_ptr` member, so the copy holds the same impl and no boundary-API
call is made.  The returned trace records the boundary calls performed. -/
def chip_name.copy (c : chip_name) : chip_name × List BCall := (⟨c.m_impl⟩, [])

/-- The implicitly defaulted copy constructor of `feature`. -/
def feature.copy (f : feature) : feature × List BCall := (⟨f.m_chip, f.m_impl⟩, [])

/-- The implicitly defaulted copy constructor of `subfeature`. -/
def subfeature.copy (s : subfeature) : subfeature × List BCall :=
  (⟨s.m_feature, s.m_impl⟩, [])

/-- `get_detected_chips()` (the pure enumeration part): one `chip_name`
per chip reported by `sensors_get_detected_chips`, in cursor order. -/
def detectedChips (w : World) : List chip_name := w.chips.map (fun c => ⟨c⟩)

/-- `chip_name::chip_name(path)`: wrap `impl::find`. -/
def chip_name.fromPath (w : World) (p : Str) : Except SError chip_name :=
  (findChipRec w p).map (fun c => ⟨c⟩)

/-- `feature::feature(full_path)`: wrap `impl::find(full_path)`. -/
def feature.fromFullPath (w : World) (p : Str) : Except SError feature :=
  (findFeatureFullRec w p).map (fun cf => ⟨⟨cf.1⟩, cf.2⟩)

/-- `subfeature::subfeature(path)`: wrap `impl::find(path)`. -/
def subfeature.fromPath (w : World) (p : Str) : Except SError subfeature :=
  (findSubfeatureRec w p).map (fun cfs => ⟨⟨⟨cfs.1⟩, cfs.2.1⟩, cfs.2.2⟩)

/-! ### Global handle lifecycle (`libsensors_handle`, `get_handle`,
`load_config` in `src/sensors.cpp`)

The boundary functions a `libsensors_handle` interacts with are collected in
an `Env`; libsensors/stdio interactions are recorded as an `Ev` trace.
-/

/-- The boundary/stdio functions used by `libsensors_handle`:
`std::fopen` (returning a `FILE*` or null), `errno`/`std::strerror`,
`sensors_init` (returning an error code) and `sensors_strerror`. -/
structure Env where
  fopen : Str → Option Nat
  errno : Int
  strerror : Int → Str
  sensorsInit : Option Nat → Int
  sensorsStrerror : Int → Str

/-- The fields of a successfully constructed `libsensors_handle`. -/
structure Handle where
  m_path : Str
  m_config : Option Nat
deriving DecidableEq, Repr

/-- Events on the libsensors/stdio boundary, in the order performed. -/
inductive Ev
  | fopenEv (path : Str)
  | initEv (config : Option Nat)
  | cleanupEv
  | fcloseEv (f : Nat)
deriving DecidableEq, Repr

/-- The `libsensors_handle` constructor: fopen the path, fail with
`init_error` when a non-empty path could not be opened (message built from
`std::strerror(errno)`), call `sensors_init`, and fail with `init_error`
carrying `sensors_strerror`'s text when it returns non-zero
(`error::error(int)` in `src/error.cpp`). -/
def mkHandle (env : Env) (path : Str) : Except SError Handle × List Ev :=
  let config := env.fopen path
  if path ≠ [] ∧ config = none then
    (.error (.initError (str "Failed to open config file (" ++
      env.strerror env.errno ++ str ")")), [.fopenEv path])
  else
    let e := env.sensorsInit config
    if e ≠ 0 then
      (.error (.initError (env.sensorsStrerror e)), [.fopenEv path, .initEv config])
    else
      (.ok ⟨path, config⟩, [.fopenEv path, .initEv config])

/-- The `libsensors_handle` destructor: `sensors_cleanup()`, then `fclose`
of the config file when one is open. -/
def destroyHandle (h : Handle) : List Ev :=
  .cleanupEv :: (match h.m_config with | some f => [.fcloseEv f] | none => [])

/-- The process-wide state behind `get_handle()`: whether the magic static
has been initialised, and the `unique_ptr`'s contents (null after a failed
reconfiguration). -/
structure GState where
  staticInit : Bool
  handle : Option Handle
deriving DecidableEq, Repr

/-- `get_handle()`: on first access construct the static
`libsensors_handle` with the default (empty) configuration path; a throwing
construction leaves the static uninitialised. -/
def getHandleE (env : Env) (st : GState) : Except SError GState × List Ev :=
  if st.staticInit then (.ok st, [])
  else
    match mkHandle env [] with
    | (.ok h, tr) => (.ok ⟨true, some h⟩, tr)
    | (.error e, tr) => (.error e, tr)

/-- `load_config(path)`: ensure the static handle exists, compare `path`
with the active `config_path()`, and when they differ reset the handle (its
destructor runs) and construct a new one.  `none` marks the undefined
behaviour of dereferencing a null handle (possible only after a previous
failed reconfiguration). -/
def loadConfig (env : Env) (st : GState) (path : Str) :
    Option (Except SError Unit × GState × List Ev) :=
  match getHandleE env st with
  | (.error e, tr) => some (.error e, st, tr)
  | (.ok st1, tr0) =>
    match st1.handle with
    | none => none
    | some h =>
      if path = h.m_path then some (.ok (), st1, tr0)
      else
        match mkHandle env path with
        | (.ok h2, tr1) =>
          some (.ok (), ⟨true, some h2⟩, tr0 ++ destroyHandle h ++ tr1)
        | (.error e, tr1) =>
          some (.error e, ⟨true, none⟩, tr0 ++ destroyHandle h ++ tr1)

/-- `chip_name::impl::find(path)` with its `get_handle()` side effect: the
lookup first ensures global initialisation, then scans the enumeration. -/
def chipFind (env : Env) (st : GState) (w : World) (path : Str) :
    Except SError SChipName × GState × List Ev :=
  match getHandleE env st with
  | (.error e, tr) => (.error e, st, tr)
  | (.ok st1, tr) => (findChipRec w path, st1, tr)

/-! ### Concrete fixtures

A small example world — one hwmon chip with a `temp1` feature carrying
`temp1_input` and `temp1_max_hyst` subfeatures (standard libsensors names) —
plus a world with a chip path nested inside another chip's directory, and
example environments; used to instantiate the theorems below.
-/

def subInputRec : SSubfeature :=
  ⟨str "temp1_input", 0, SENSORS_SUBFEATURE_TEMP_INPUT, 1⟩

def subMaxHystRec : SSubfeature :=
  ⟨str "temp1_max_hyst", 1, SENSORS_SUBFEATURE_TEMP_MAX_HYST, 1⟩

def featTemp1Rec : SFeature :=
  ⟨str "temp1", 0, SENSORS_FEATURE_TEMP, [subInputRec, subMaxHystRec]⟩

def chip0Rec : SChipName :=
  ⟨str "k10temp", str "/sys/class/hwmon/hwmon0", 0,
    ⟨SENSORS_BUS_TYPE_PCI, 0⟩, [featTemp1Rec]⟩

def demoW : World := ⟨[chip0Rec]⟩

def chipE : chip_name := ⟨chip0Rec⟩

def featE : feature := ⟨chipE, featTemp1Rec⟩

def subInputE : subfeature := ⟨featE, subInputRec⟩

def subMaxHystE : subfeature := ⟨featE, subMaxHystRec⟩

/-- A chip whose path lies strictly inside `chipHw0Rec`'s directory. -/
def chipDevRec : SChipName :=
  ⟨str "w83627ehf", str "/sys/class/hwmon/hwmon0/device", 1,
    ⟨SENSORS_BUS_TYPE_ISA, 0⟩, []⟩

def chipHw0Rec : SChipName :=
  ⟨str "k10temp", str "/sys/class/hwmon/hwmon0", 0,
    ⟨SENSORS_BUS_TYPE_PCI, 0⟩, []⟩

def nestedW : World := ⟨[chipDevRec, chipHw0Rec]⟩

/-- An environment where every `fopen` fails with `ENOENT` and
`sensors_init` succeeds. -/
def envD : Env :=
  ⟨fun _ => none, 2, fun _ => str "No such file or directory",
    fun _ => 0, fun _ => str "Unknown error"⟩

/-- An environment where `fopen` succeeds but `sensors_init` rejects the
configuration with code `-6`. -/
def envBad : Env :=
  ⟨fun _ => some 3, 0, fun _ => str "Success",
    fun _ => -6, fun _ => str "General parse error"⟩

/-- An active global state holding a configuration loaded from
`/etc/sensors3.conf`. -/
def hD : Handle := ⟨str "/etc/sensors3.conf", none⟩

def stD : GState := ⟨true, some hD⟩

/-! ### Helper lemmas on the string and path model -/

theorem splitOnChar_ne_nil (sep : Char) (l : Str) : splitOnChar sep l ≠ [] := by
  induction l with
  | nil => simp [splitOnChar]
  | cons c rest ih =>
    simp only [splitOnChar]
    split
    · simp
    · split
      · simp
      · simp

theorem splitOnChar_append_cons (sep : Char) (xs ys : Str) :
    splitOnChar sep (xs ++ sep :: ys) =
      splitOnChar sep xs ++ splitOnChar sep ys := by
  induction xs with
  | nil => simp [splitOnChar]
  | cons c rest ih =>
    by_cases hc : c = sep
    · subst hc
      simp [splitOnChar, ih]
    · rcases h : splitOnChar sep rest with _ | ⟨r, rs⟩
      · exact absurd h (splitOnChar_ne_nil sep rest)
      · simp [splitOnChar, hc, ih, h]

theorem splitOnChar_of_not_mem {sep : Char} {l : Str} (h : sep ∉ l) :
    splitOnChar sep l = [l] := by
  induction l with
  | nil => rfl
  | cons c rest ih =>
    simp only [List.mem_cons, not_or] at h
    simp [splitOnChar, Ne.symm h.1, ih h.2]

theorem joinWithChar_cons_head (sep c : Char) (r : Str) (rs : List Str) :
    joinWithChar sep ((c :: r) :: rs) = c :: joinWithChar sep (r :: rs) := by
  cases rs <;> simp [joinWithChar]

theorem joinWithChar_splitOnChar (sep : Char) (l : Str) :
    joinWithChar sep (splitOnChar sep l) = l := by
  induction l with
  | nil => rfl
  | cons c rest ih =>
    rcases h : splitOnChar sep rest with _ | ⟨r, rs⟩
    · exact absurd h (splitOnChar_ne_nil sep rest)
    · rw [h] at ih
      by_cases hc : c = sep
      · subst hc
        simp [splitOnChar, h, joinWithChar, ih]
      · simp [splitOnChar, hc, h, joinWithChar_cons_head, ih]

theorem splitOnChar_eq_nil_chunk {sep : Char} {l : Str}
    (h : splitOnChar sep l = [[]]) : l = [] := by
  have := joinWithChar_splitOnChar sep l
  rw [h] at this
  simpa [joinWithChar] using this.symm

theorem rfindChar_of_not_mem {sep : Char} {l : Str} (h : sep ∉ l) :
    rfindChar sep l = none := by
  induction l with
  | nil => rfl
  | cons c rest ih =>
    simp only [List.mem_cons, not_or] at h
    simp [rfindChar, ih h.2, Ne.symm h.1]

theorem rfindChar_append_cons {sep : Char} (a : Str) {b : Str} (h : sep ∉ b) :
    rfindChar sep (a ++ sep :: b) = some a.length := by
  induction a with
  | nil => simp [rfindChar, rfindChar_of_not_mem h]
  | cons c a' ih => simp [rfindChar, ih]

theorem featNameOf_of_not_mem {l : Str} (h : '_' ∉ l) : featNameOf l = l := by
  simp [featNameOf, rfindChar_of_not_mem h]

theorem featNameOf_append_cons (a : Str) {b : Str} (h : '_' ∉ b) :
    featNameOf (a ++ '_' :: b) = a := by
  simp [featNameOf, rfindChar_append_cons a h, List.take_left]

theorem pathFilename_append_cons (dir : Str) {name : Str} (h : '/' ∉ name) :
    pathFilename (dir ++ '/' :: name) = name := by
  simp [pathFilename, splitOnChar_append_cons, splitOnChar_of_not_mem h,
    List.getLastD_concat]

theorem pathParent_append_cons {dir : Str} {name : Str} (h : '/' ∉ name)
    (hd : dir ≠ []) : pathParent (dir ++ '/' :: name) = dir := by
  have hsplit : splitOnChar '/' (dir ++ '/' :: name) =
      splitOnChar '/' dir ++ [name] :=
    by rw [splitOnChar_append_cons, splitOnChar_of_not_mem h]
  have hne : splitOnChar '/' dir ≠ [[]] := fun hc => hd (splitOnChar_eq_nil_chunk hc)
  simp [pathParent, hsplit, List.dropLast_concat, hne,
    joinWithChar_splitOnChar]

theorem find?_congr_pred {α : Type} {p q : α → Bool} :
    ∀ {l : List α}, (∀ a ∈ l, p a = q a) → l.find? p = l.find? q
  | [], _ => rfl
  | a :: l, h => by
    have ha := h a (List.mem_cons_self a l)
    have ih := find?_congr_pred (fun x hx => h x (List.mem_cons_of_mem a hx))
    simp only [List.find?_cons, ha, ih]

theorem chainLookup_of_not_mem {β : Type} {tbl : List (Int × β)} {dflt : β}
    {code : Int} (h : code ∉ tbl.map Prod.fst) :
    chainLookup tbl dflt code = dflt := by
  induction tbl with
  | nil => rfl
  | cons p rest ih =>
    obtain ⟨c, v⟩ := p
    simp only [List.map_cons, List.mem_cons, not_or] at h
    simp [chainLookup, h.1, ih h.2]

theorem chainLookup_mem_snd {β : Type} {tbl : List (Int × β)} {dflt : β}
    {code : Int} (h : code ∈ tbl.map Prod.fst) :
    chainLookup tbl dflt code ∈ tbl.map Prod.snd := by
  induction tbl with
  | nil => simp at h
  | cons p rest ih =>
    obtain ⟨c, v⟩ := p
    by_cases hc : code = c
    · simp [chainLookup, hc]
    · simp only [List.map_cons, List.mem_cons] at h
      rcases h with h | h
      · exact absurd h hc
      · exact List.mem_cons_of_mem _ (by simpa [chainLookup, hc] using ih h)

theorem isPrefixOf_false_iff {l p : Str} : l.isPrefixOf p = false ↔ ¬ l <+: p := by
  constructor
  · intro h hc
    rw [List.isPrefixOf_iff_prefix.2 hc] at h
    cases h
  · intro h
    cases hb : l.isPrefixOf p
    · rfl
    · exact absurd (List.isPrefixOf_iff_prefix.1 hb) h

theorem getHandleE_ok_staticInit {env : Env} {st st1 : GState} {tr : List Ev}
    (h : getHandleE env st = (.ok st1, tr)) : st1.staticInit = true := by
  unfold getHandleE at h
  split at h
  · injection h with h1 h2
    injection h1 with h1
    subst h1
    assumption
  · split at h
    · injection h with h1 h2
      injection h1 with h1
      rw [← h1]
    · injection h with h1 h2
      exact Except.noConfusion h1

/-! ### Claim theorems -/

/-- C6: each `type()` accessor translates the native integer code through an
exhaustive switch; every code outside the recognized case labels maps to the
explicit fallback (`bus_type::any` resp. `unknown`), every recognized code
does not, and this is exactly what `bus_id::type()`, `feature::type()` and
`subfeature::type()` compute. -/
theorem type_translation_fallback :
    (∀ code : Int, code ∉ busRecognizedCodes → bus_type_of code = .any) ∧
    (∀ code : Int, code ∈ busRecognizedCodes → bus_type_of code ≠ .any) ∧
    (∀ code : Int, code ∉ featureRecognizedCodes → feature_type_of code = .unknown) ∧
    (∀ code : Int, code ∈ featureRecognizedCodes → feature_type_of code ≠ .unknown) ∧
    (∀ code : Int, code ∉ subfeatureRecognizedCodes → subfeature_type_of code = .unknown) ∧
    (∀ code : Int, code ∈ subfeatureRecognizedCodes → subfeature_type_of code ≠ .unknown) ∧
    (∀ b : bus_id, b.type = bus_type_of b.m_impl.typeCode) ∧
    (∀ f : feature, f.type = feature_type_of f.m_impl.typeCode) ∧
    (∀ s : subfeature, s.type = subfeature_type_of s.m_impl.typeCode) := by
  refine ⟨fun code h => chainLookup_of_not_mem h,
    fun code h hc => ?_,
    fun code h => chainLookup_of_not_mem h,
    fun code h hc => ?_,
    fun code h => chainLookup_of_not_mem h,
    fun code h hc => ?_,
    fun _ => rfl, fun _ => rfl, fun _ => rfl⟩
  · exact (by decide : ∀ v ∈ busCaseTable.map Prod.snd, v ≠ bus_type.any)
      (bus_type_of code) (chainLookup_mem_snd h) hc
  · exact (by decide : ∀ v ∈ featureCaseTable.map Prod.snd, v ≠ feature_type.unknown)
      (feature_type_of code) (chainLookup_mem_snd h) hc
  · exact (by decide : ∀ v ∈ subfeatureCaseTable.map Prod.snd, v ≠ subfeature_type.unknown)
      (subfeature_type_of code) (chainLookup_mem_snd h) hc

/-- Witness for C6 at concrete codes: `99` is recognized by none of the
switches and falls back; `0x200` (`SENSORS_SUBFEATURE_TEMP_INPUT`) does
not. -/
theorem type_translation_fallback_witness :
    bus_type_of 99 = .any ∧ feature_type_of 99 = .unknown ∧
    subfeature_type_of 99 = .unknown ∧ subfeature_type_of 0x200 ≠ .unknown :=
  ⟨type_translation_fallback.1 99 (by decide),
   type_translation_fallback.2.2.1 99 (by decide),
   type_translation_fallback.2.2.2.2.1 99 (by decide),
   type_translation_fallback.2.2.2.2.2.1 0x200 (by decide)⟩

/-- C7: constructing the global handle with a non-empty path whose file
cannot be opened fails with `init_error` whose message embeds the
`strerror(errno)` description of the filesystem error; and when
`sensors_init` rejects the configuration with a non-zero code, construction
fails with `init_error` carrying `sensors_strerror`'s diagnostic for that
code. -/
theorem init_failure_errors (env : Env) (path : Str) :
    (path ≠ [] → env.fopen path = none →
      mkHandle env path =
        (.error (.initError (str "Failed to open config file (" ++
          env.strerror env.errno ++ str ")")), [.fopenEv path])) ∧
    ((path = [] ∨ (env.fopen path).isSome) → env.sensorsInit (env.fopen path) ≠ 0 →
      mkHandle env path =
        (.error (.initError (env.sensorsStrerror (env.sensorsInit (env.fopen path)))),
          [.fopenEv path, .initEv (env.fopen path)])) := by
  constructor
  · intro h1 h2
    simp [mkHandle, h1, h2]
  · intro h1 h2
    have hnc : ¬(path ≠ [] ∧ env.fopen path = none) := by
      rcases h1 with h | h
      · simp [h]
      · intro hc
        rw [hc.2] at h
        simp at h
    simp [mkHandle, hnc, h2]

/-- Witness for C7: in `envD` every `fopen` fails, so a named path yields
the filesystem `init_error`; in `envBad` the file opens but `sensors_init`
returns `-6`, yielding the library-diagnostic `init_error`. -/
theorem init_failure_errors_witness :
    (str "/etc/file.conf" ≠ [] ∧ envD.fopen (str "/etc/file.conf") = none ∧
      mkHandle envD (str "/etc/file.conf") =
        (.error (.initError (str "Failed to open config file (" ++
          envD.strerror envD.errno ++ str ")")), [.fopenEv (str "/etc/file.conf")])) ∧
    (envBad.sensorsInit (envBad.fopen (str "/etc/bad.conf")) ≠ 0 ∧
      mkHandle envBad (str "/etc/bad.conf") =
        (.error (.initError (envBad.sensorsStrerror
            (envBad.sensorsInit (envBad.fopen (str "/etc/bad.conf"))))),
          [.fopenEv (str "/etc/bad.conf"), .initEv (envBad.fopen (str "/etc/bad.conf"))])) :=
  ⟨⟨by decide, rfl,
      (init_failure_errors envD (str "/etc/file.conf")).1 (by decide) rfl⟩,
    ⟨by decide,
      (init_failure_errors envBad (str "/etc/bad.conf")).2 (Or.inr rfl) (by decide)⟩⟩

/-- C4: with a handle active, `load_config` with the same path is a no-op
(state unchanged, no boundary events at all, hence no teardown and no
reinitialisation); with a different path it first runs the active handle's
destructor and then constructs a new handle with the new path; with the
empty path (when `fopen("")` fails as on POSIX and `sensors_init(NULL)`
succeeds) the new handle holds no config file handle — the default
configuration. -/
theorem load_config_behavior (env : Env) (st : GState) (h : Handle) (path : Str)
    (hst : st = ⟨true, some h⟩) :
    (path = h.m_path → loadConfig env st path = some (.ok (), st, [])) ∧
    (path ≠ h.m_path →
      loadConfig env st path = some
        (match mkHandle env path with
         | (.ok h2, tr1) => (.ok (), ⟨true, some h2⟩, destroyHandle h ++ tr1)
         | (.error e, tr1) => (.error e, ⟨true, none⟩, destroyHandle h ++ tr1))) ∧
    (path = [] → h.m_path ≠ [] → env.fopen [] = none → env.sensorsInit none = 0 →
      loadConfig env st path = some
        (.ok (), ⟨true, some ⟨[], none⟩⟩,
          destroyHandle h ++ [.fopenEv [], .initEv none])) := by
  subst hst
  refine ⟨fun he => ?_, fun hne => ?_, fun hp hne hf hi => ?_⟩
  · simp [loadConfig, getHandleE, he]
  · rcases hmk : mkHandle env path with ⟨r, tr1⟩
    cases r <;> simp [loadConfig, getHandleE, hne, hmk]
  · subst hp
    have hmk : mkHandle env [] = (.ok ⟨[], none⟩, [.fopenEv [], .initEv none]) := by
      simp [mkHandle, hf, hi]
    simp [loadConfig, getHandleE, Ne.symm hne, hmk]

/-- Witness for C4 in `envD` starting from the active state `stD`
(configuration `/etc/sensors3.conf`): reloading the same path is a no-op
with an empty event trace, and loading the empty path tears down and
reinitialises with no config file handle. -/
theorem load_config_behavior_witness :
    loadConfig envD stD (str "/etc/sensors3.conf") = some (.ok (), stD, []) ∧
    loadConfig envD stD [] = some
      (.ok (), ⟨true, some ⟨[], none⟩⟩,
        destroyHandle hD ++ [.fopenEv [], .initEv none]) :=
  ⟨(load_config_behavior envD stD hD (str "/etc/sensors3.conf") rfl).1 rfl,
    (load_config_behavior envD stD hD [] rfl).2.2 rfl (by decide) rfl rfl⟩

/-- C10: when `load_config` is called with a path different from the active
one and construction of the new handle fails, the old handle's teardown has
already run (the trace starts with `sensors_cleanup`), the error propagates,
and the final state holds no handle at all — the old configuration is not
restored. -/
theorem load_config_not_atomic (env : Env) (st : GState) (h : Handle)
    (path : Str) (e : SError) (tr1 : List Ev)
    (hst : st = ⟨true, some h⟩) (hne : path ≠ h.m_path)
    (hfail : mkHandle env path = (.error e, tr1)) :
    loadConfig env st path = some (.error e, ⟨true, none⟩, destroyHandle h ++ tr1) ∧
    (destroyHandle h ++ tr1).head? = some .cleanupEv := by
  subst hst
  constructor
  · simp [loadConfig, getHandleE, hne, hfail]
  · simp [destroyHandle]

/-- Witness for C10: reconfiguring `stD` to `/bad.conf` under `envD` (all
opens fail) tears down the old state, fails with `init_error`, and leaves no
handle. -/
theorem load_config_not_atomic_witness :
    loadConfig envD stD (str "/bad.conf") = some
      (.error (.initError (str "Failed to open config file (No such file or directory)")),
        ⟨true, none⟩,
        destroyHandle hD ++ [.fopenEv (str "/bad.conf")]) ∧
    (destroyHandle hD ++ [Ev.fopenEv (str "/bad.conf")]).head? = some Ev.cleanupEv :=
  load_config_not_atomic envD stD hD (str "/bad.conf")
    (SError.initError (str "Failed to open config file (No such file or directory)"))
    [Ev.fopenEv (str "/bad.conf")] rfl (by decide) rfl

/-- C8: the (implicitly defaulted) copy constructors of `chip_name`,
`feature` and `subfeature` perform no boundary-API call (empty call trace),
yield a copy holding the very same impl members as the original, and the
copy's accessors observe the same underlying native record as the
original's. -/
theorem copy_shares_handle (c : chip_name) (f : feature) (s : subfeature) :
    ((chip_name.copy c).2 = [] ∧ (chip_name.copy c).1.m_impl = c.m_impl ∧
      (chip_name.copy c).1 = c ∧
      (chip_name.copy c).1.path = c.path ∧
      (chip_name.copy c).1.prefixStr = c.prefixStr ∧
      (chip_name.copy c).1.address = c.address) ∧
    ((feature.copy f).2 = [] ∧ (feature.copy f).1.m_impl = f.m_impl ∧
      (feature.copy f).1.m_chip = f.m_chip ∧ (feature.copy f).1 = f ∧
      (feature.copy f).1.name = f.name ∧ (feature.copy f).1.number = f.number ∧
      (feature.copy f).1.type = f.type) ∧
    ((subfeature.copy s).2 = [] ∧ (subfeature.copy s).1.m_impl = s.m_impl ∧
      (subfeature.copy s).1.m_feature = s.m_feature ∧ (subfeature.copy s).1 = s ∧
      (subfeature.copy s).1.name = s.name ∧ (subfeature.copy s).1.number = s.number ∧
      (subfeature.copy s).1.type = s.type) :=
  ⟨⟨rfl, rfl, rfl, rfl, rfl, rfl⟩,
    ⟨rfl, rfl, rfl, rfl, rfl, rfl, rfl⟩,
    ⟨rfl, rfl, rfl, rfl, rfl, rfl, rfl⟩⟩

/-- C9: `feature::subfeature(type)` returns the first element of
`subfeatures()` (in enumeration order) whose `type()` equals the requested
type, and an empty optional exactly when no subfeature of the feature has
that type. -/
theorem subfeature_by_type_first (f : feature) (t : subfeature_type) :
    (feature.subfeature f t = none ↔ ∀ sf ∈ f.subfeatures, sf.type ≠ t) ∧
    (∀ sf, feature.subfeature f t = some sf →
      sf.type = t ∧ ∃ l₁ l₂, f.subfeatures = l₁ ++ sf :: l₂ ∧
        ∀ x ∈ l₁, x.type ≠ t) ∧
    (∀ l₁ sf l₂, f.subfeatures = l₁ ++ sf :: l₂ → sf.type = t →
      (∀ x ∈ l₁, x.type ≠ t) → feature.subfeature f t = some sf) := by
  refine ⟨?_, ?_, ?_⟩
  · rw [feature.subfeature, List.find?_eq_none]
    simp
  · intro sf h
    rw [feature.subfeature, List.find?_eq_some] at h
    obtain ⟨hp, l₁, l₂, heq, hprev⟩ := h
    refine ⟨by simpa using hp, l₁, l₂, heq, fun x hx => by simpa using hprev x hx⟩
  · intro l₁ sf l₂ heq ht hprev
    rw [feature.subfeature, List.find?_eq_some]
    exact ⟨by simpa using ht, l₁, l₂, heq, fun x hx => by simpa using hprev x hx⟩

/-- Witness for C9 on the demo feature: its subfeature list is
`[temp1_input, temp1_max_hyst]` and the `input` lookup returns the first
entry. -/
theorem subfeature_by_type_first_witness :
    feature.subfeature featE .input = some subInputE :=
  (subfeature_by_type_first featE .input).2.2 [] subInputE [subMaxHystE]
    rfl (by decide) (by simp)

/-- C3: feature lookup by full path takes the text before the last
underscore of the filename (the whole filename when it has no underscore)
as the feature-name candidate and the parent directory as the chip path,
then returns the first enumerated feature on the resolved chip whose name
equals the candidate exactly, raising `parse_error` naming the chip's
prefix when no feature name matches. -/
theorem feature_full_path_lookup :
    (∀ l : Str, '_' ∉ l → featNameOf l = l) ∧
    (∀ a b : Str, '_' ∉ b → featNameOf (a ++ '_' :: b) = a) ∧
    (∀ w p, findFeatureFullRec w p =
      findFeatureRec w (pathParent p) (featNameOf (pathFilename p))) ∧
    (∀ w p c, findChipRec w (pathParent p) = .ok c →
      (∀ g ∈ c.features, g.name ≠ featNameOf (pathFilename p)) →
      findFeatureFullRec w p = .error (.parseError (str "Feature " ++
        featNameOf (pathFilename p) ++ str " not found on chip " ++
        c.prefixStr))) ∧
    (∀ w p c l₁ f l₂, findChipRec w (pathParent p) = .ok c →
      c.features = l₁ ++ f :: l₂ → f.name = featNameOf (pathFilename p) →
      (∀ g ∈ l₁, g.name ≠ featNameOf (pathFilename p)) →
      findFeatureFullRec w p = .ok (c, f)) := by
  refine ⟨fun l h => featNameOf_of_not_mem h,
    fun a b h => featNameOf_append_cons a h, fun w p => rfl, ?_, ?_⟩
  · intro w p c hc hno
    have hfind : c.features.find?
        (fun g => decide (g.name = featNameOf (pathFilename p))) = none := by
      rw [List.find?_eq_none]
      intro g hg
      simpa using hno g hg
    simp [findFeatureFullRec, findFeatureRec, hc, hfind]
  · intro w p c l₁ f l₂ hc heq hname hprev
    have hfind : c.features.find?
        (fun g => decide (g.name = featNameOf (pathFilename p))) = some f := by
      rw [List.find?_eq_some]
      exact ⟨by simpa using hname, l₁, l₂, heq,
        fun g hg => by simpa using hprev g hg⟩
    simp [findFeatureFullRec, findFeatureRec, hc, hfind]

/-- Witness for C3 at the spec's examples: `temp1_input` splits to feature
name `temp1`, underscore-free `fan1` stays `fan1`, and the full-path lookup
of `/sys/class/hwmon/hwmon0/temp1_input` on the demo world resolves feature
`temp1` on the hwmon0 chip. -/
theorem feature_full_path_lookup_witness :
    featNameOf (str "temp1_input") = str "temp1" ∧
    featNameOf (str "fan1") = str "fan1" ∧
    findFeatureFullRec demoW (str "/sys/class/hwmon/hwmon0/temp1_input") =
      .ok (chip0Rec, featTemp1Rec) :=
  ⟨feature_full_path_lookup.2.1 (str "temp1") (str "input") (by decide),
   feature_full_path_lookup.1 (str "fan1") (by decide),
   feature_full_path_lookup.2.2.2.2 demoW
     (str "/sys/class/hwmon/hwmon0/temp1_input") chip0Rec [] featTemp1Rec []
     (by decide) rfl (by decide) (by simp)⟩

/-- C5: subfeature lookup by full path raises `parse_error` when the path
has no non-empty filename; otherwise it resolves the parent feature by
full-path feature lookup on the same path (propagating its error), then
returns the first enumerated subfeature of that feature whose name equals
the full filename, raising `parse_error` when none matches. -/
theorem subfeature_full_path_lookup :
    (∀ w p, pathFilename p = [] →
      findSubfeatureRec w p =
        .error (.parseError (str "Path does not contain filename: " ++ p))) ∧
    (∀ w p e, pathFilename p ≠ [] → findFeatureFullRec w p = .error e →
      findSubfeatureRec w p = .error e) ∧
    (∀ w p c f, pathFilename p ≠ [] → findFeatureFullRec w p = .ok (c, f) →
      (∀ x ∈ f.subfeatures, x.name ≠ pathFilename p) →
      findSubfeatureRec w p =
        .error (.parseError (str "Subfeature not found: " ++ pathFilename p))) ∧
    (∀ w p c f l₁ x l₂, pathFilename p ≠ [] →
      findFeatureFullRec w p = .ok (c, f) →
      f.subfeatures = l₁ ++ x :: l₂ → x.name = pathFilename p →
      (∀ y ∈ l₁, y.name ≠ pathFilename p) →
      findSubfeatureRec w p = .ok (c, f, x)) := by
  refine ⟨?_, ?_, ?_, ?_⟩
  · intro w p h
    simp [findSubfeatureRec, h]
  · intro w p e h hf
    simp [findSubfeatureRec, h, hf]
  · intro w p c f h hf hno
    have hfind : f.subfeatures.find?
        (fun s => decide (s.name = pathFilename p)) = none := by
      rw [List.find?_eq_none]
      intro s hs
      simpa using hno s hs
    simp [findSubfeatureRec, h, hf, hfind]
  · intro w p c f l₁ x l₂ h hf heq hn hprev
    have hfind : f.subfeatures.find?
        (fun s => decide (s.name = pathFilename p)) = some x := by
      rw [List.find?_eq_some]
      exact ⟨by simpa using hn, l₁, l₂, heq,
        fun y hy => by simpa using hprev y hy⟩
    simp [findSubfeatureRec, h, hf, hfind]

/-- Witness for C5: a path ending in a directory separator has no filename
and fails with the `parse_error`; the full subfeature path resolves the
`temp1_input` subfeature of `temp1` on the demo chip. -/
theorem subfeature_full_path_lookup_witness :
    pathFilename (str "/sys/class/hwmon/hwmon0/") = [] ∧
    findSubfeatureRec demoW (str "/sys/class/hwmon/hwmon0/") =
      .error (.parseError (str "Path does not contain filename: " ++
        str "/sys/class/hwmon/hwmon0/")) ∧
    findSubfeatureRec demoW (str "/sys/class/hwmon/hwmon0/temp1_input") =
      .ok (chip0Rec, featTemp1Rec, subInputRec) :=
  ⟨by decide,
   subfeature_full_path_lookup.1 demoW (str "/sys/class/hwmon/hwmon0/")
     (by decide),
   subfeature_full_path_lookup.2.2.2 demoW
     (str "/sys/class/hwmon/hwmon0/temp1_input") chip0Rec featTemp1Rec
     [] subInputRec [subMaxHystRec] (by decide) (by decide) rfl (by decide)
     (by simp)⟩

/-- Counterexample to C1 as stated: on a world holding exactly the standard
libsensors data for one chip — feature `temp1` with subfeatures
`temp1_input` and `temp1_max_hyst` — the enumerated subfeature
`temp1_max_hyst` does NOT round-trip: the constructed path splits at the
*last* underscore into feature candidate `temp1_max`, which matches no
feature, so the lookup raises `parse_error` instead of yielding the
subfeature. -/
theorem roundtrip_counterexample :
    chipE ∈ detectedChips demoW ∧ featE ∈ chipE.features ∧
    subMaxHystE ∈ featE.subfeatures ∧
    chipE.path ++ '/' :: subMaxHystE.name =
      str "/sys/class/hwmon/hwmon0/temp1_max_hyst" ∧
    subfeature.fromPath demoW (chipE.path ++ '/' :: subMaxHystE.name) =
      .error (.parseError (str "Feature temp1_max not found on chip k10temp")) :=
  ⟨by decide, by decide, by decide, by decide, by decide⟩

/-- C1 (amended): the round-trip holds for an enumerated subfeature whose
name splits at its last underscore back to its feature's name, provided the
world resolves the chain uniquely: the chip's path resolves (by prefix
scan) to the chip itself, the feature's name resolves to the feature's own
record, the subfeature's name resolves to its own record, and the
subfeature name is non-empty and free of `/`.  Then constructing a
Subfeature from `c.path() + "/" + s.name()` yields exactly `s` (same name,
number and type). -/
theorem roundtrip_amended (w : World) (cE : chip_name) (fE : feature)
    (sE : subfeature)
    (h1 : cE ∈ detectedChips w) (h2 : fE ∈ cE.features)
    (h3 : sE ∈ fE.subfeatures)
    (hchip : findChipRec w cE.path = .ok cE.m_impl)
    (hcne : cE.path ≠ [])
    (hslash : '/' ∉ sE.name) (hnil : sE.name ≠ [])
    (hsplit : featNameOf sE.name = fE.name)
    (hfeat : cE.m_impl.features.find?
      (fun g => decide (g.name = fE.name)) = some fE.m_impl)
    (hsub : fE.m_impl.subfeatures.find?
      (fun x => decide (x.name = sE.name)) = some sE.m_impl) :
    subfeature.fromPath w (cE.path ++ '/' :: sE.name) = .ok sE := by
  obtain ⟨fr, hfr, hfe⟩ := List.mem_map.1 h2
  obtain ⟨sr, hsr, hse⟩ := List.mem_map.1 h3
  subst hse
  subst hfe
  simp only [subfeature.name, feature.name, chip_name.path] at hchip hcne hslash hnil hsplit hfeat hsub ⊢
  have hfile := pathFilename_append_cons cE.m_impl.path hslash
  have hpar := pathParent_append_cons hslash hcne
  have hfull : findFeatureFullRec w (cE.m_impl.path ++ '/' :: sr.name) =
      .ok (cE.m_impl, fr) := by
    simp only [findFeatureFullRec, findFeatureRec, hfile, hpar, hsplit,
      hchip, hfeat]
  have hsubf : findSubfeatureRec w (cE.m_impl.path ++ '/' :: sr.name) =
      .ok (cE.m_impl, fr, sr) := by
    simp only [findSubfeatureRec, hfile, hnil, if_false, hfull, hsub]
  simp only [subfeature.fromPath, hsubf, Except.map]

/-- Witness for the amended C1: on the demo world the `temp1_input`
subfeature (whose name does split back to `temp1`) round-trips to itself. -/
theorem roundtrip_amended_witness :
    subfeature.fromPath demoW (chipE.path ++ '/' :: subInputE.name) =
      .ok subInputE :=
  roundtrip_amended demoW chipE featE subInputE (by decide) (by decide)
    (by decide) (by decide) (by decide) (by decide) (by decide) (by decide)
    (by decide) (by decide)

/-- Counterexample to C2's consequence clause as stated: in a world where
one chip's path (`.../hwmon0/device`) lies strictly inside another chip's
directory (`.../hwmon0`), looking up a path strictly below `.../hwmon0`
returns the nested chip, not the chip found at `.../hwmon0` itself —
string-prefix matching does not respect directory boundaries. -/
theorem chip_lookup_spec_counterexample :
    chipHw0Rec ∈ nestedW.chips ∧
    str "/sys/class/hwmon/hwmon0/device_temp" =
      chipHw0Rec.path ++ '/' :: str "device_temp" ∧
    findChipRec nestedW (str "/sys/class/hwmon/hwmon0/device_temp") =
      .ok chipDevRec ∧
    findChipRec nestedW chipHw0Rec.path = .ok chipHw0Rec ∧
    chipDevRec ≠ chipHw0Rec :=
  ⟨by decide, by decide, by decide, by decide, by decide⟩

/-- C2 (amended): `find_chip` first ensures global initialization (the
lookup runs only after `get_handle()` succeeds, and an initialization
failure propagates); it returns the first enumerated chip whose own path is
a string prefix of the supplied path — success is equivalent to such a
first prefix match existing — and raises `parse_error` exactly when no
enumerated chip's path is a prefix of the supplied path.  Lookup on a path
strictly below a chip's directory returns the same chip as lookup on the
chip's own path *provided* no enumerated chip's path lies strictly inside
that chip's directory. -/
theorem chip_lookup_spec (env : Env) (st : GState) (w : World) (p : Str) :
    (∀ st1 tr, getHandleE env st = (.ok st1, tr) →
      chipFind env st w p = (findChipRec w p, st1, tr) ∧
        st1.staticInit = true) ∧
    (∀ e tr, getHandleE env st = (.error e, tr) →
      chipFind env st w p = (.error e, st, tr)) ∧
    (∀ c, findChipRec w p = .ok c ↔
      ∃ l₁ l₂, w.chips = l₁ ++ c :: l₂ ∧ c.path <+: p ∧
        ∀ d ∈ l₁, ¬ d.path <+: p) ∧
    (findChipRec w p = .error (.parseError (str "No chip found at " ++ p)) ↔
      ∀ d ∈ w.chips, ¬ d.path <+: p) ∧
    (∀ c rest, c ∈ w.chips →
      (∀ d ∈ w.chips, ¬ (c.path ++ ['/']) <+: d.path) →
      findChipRec w (c.path ++ '/' :: rest) = findChipRec w c.path) := by
  refine ⟨?_, ?_, ?_, ?_, ?_⟩
  · intro st1 tr h
    exact ⟨by simp [chipFind, h], getHandleE_ok_staticInit h⟩
  · intro e tr h
    simp [chipFind, h]
  · intro c
    constructor
    · intro hok
      rcases hf : w.chips.find? (fun d => d.path.isPrefixOf p) with _ | d
      · simp [findChipRec, hf] at hok
      · simp only [findChipRec, hf] at hok
        injection hok with hok
        subst hok
        obtain ⟨hp, l₁, l₂, heq, hprev⟩ := List.find?_eq_some.1 hf
        exact ⟨l₁, l₂, heq,
          by simpa [List.isPrefixOf_iff_prefix] using hp,
          fun d' hd' => by
            simpa [Bool.not_eq_true', isPrefixOf_false_iff] using hprev d' hd'⟩
    · rintro ⟨l₁, l₂, heq, hcp, hprev⟩
      have hf : w.chips.find? (fun d => d.path.isPrefixOf p) = some c :=
        List.find?_eq_some.2
          ⟨by simpa [List.isPrefixOf_iff_prefix] using hcp, l₁, l₂, heq,
            fun d hd => by
              simpa [Bool.not_eq_true', isPrefixOf_false_iff] using hprev d hd⟩
      simp [findChipRec, hf]
  · constructor
    · intro herr
      rcases hf : w.chips.find? (fun d => d.path.isPrefixOf p) with _ | d
      · intro d hd
        have := List.find?_eq_none.1 hf d hd
        simpa [List.isPrefixOf_iff_prefix] using this
      · simp [findChipRec, hf] at herr
    · intro hall
      have hf : w.chips.find? (fun d => d.path.isPrefixOf p) = none := by
        rw [List.find?_eq_none]
        intro d hd
        simpa [List.isPrefixOf_iff_prefix] using hall d hd
      simp [findChipRec, hf]
  · intro c rest hc hsep
    have hpred : ∀ d ∈ w.chips,
        (d.path.isPrefixOf (c.path ++ '/' :: rest)) =
          (d.path.isPrefixOf c.path) := by
      intro d hd
      by_cases hdp : d.path <+: c.path
      · have hdeep : d.path <+: (c.path ++ '/' :: rest) :=
          hdp.trans ⟨'/' :: rest, rfl⟩
        rw [List.isPrefixOf_iff_prefix.2 hdeep, List.isPrefixOf_iff_prefix.2 hdp]
      · have hdeep : ¬ d.path <+: (c.path ++ '/' :: rest) := by
          intro hdeep
          have hcp : (c.path ++ ['/']) <+: (c.path ++ '/' :: rest) :=
            ⟨rest, by simp⟩
          rcases List.prefix_or_prefix_of_prefix hdeep hcp with hA | hB
          · rcases le_or_lt d.path.length c.path.length with hl | hl
            · exact hdp (List.prefix_of_prefix_length_le hA
                (List.prefix_append c.path ['/']) hl)
            · have hlen : (c.path ++ ['/']).length ≤ d.path.length := by
                simpa using hl
              exact hsep d hd
                (List.prefix_of_prefix_length_le List.prefix_rfl hA hlen)
          · exact hsep d hd hB
        rw [isPrefixOf_false_iff.2 hdeep, isPrefixOf_false_iff.2 hdp]
    unfold findChipRec
    rw [find?_congr_pred hpred]
    rcases hf : w.chips.find? (fun d => d.path.isPrefixOf c.path) with _ | d
    · exfalso
      have := List.find?_eq_none.1 hf c hc
      simp [List.isPrefixOf_iff_prefix] at this
    · simp [hf]

/-- Witness for the amended C2 on the demo world: lookup after successful
initialization delegates to the pure scan; lookup of the chip path itself
succeeds with the first prefix match; a path under no chip fails with
`parse_error`; and the deeper `temp1_input` path resolves to the same chip
as the chip's own path. -/
theorem chip_lookup_spec_witness :
    chipFind envD stD demoW (str "/sys/class/hwmon/hwmon0") =
      (findChipRec demoW (str "/sys/class/hwmon/hwmon0"), stD, []) ∧
    findChipRec demoW (str "/sys/class/hwmon/hwmon0") = .ok chip0Rec ∧
    findChipRec demoW (str "/nonexistent") =
      .error (.parseError (str "No chip found at " ++ str "/nonexistent")) ∧
    findChipRec demoW (chip0Rec.path ++ '/' :: str "temp1_input") =
      findChipRec demoW chip0Rec.path :=
  ⟨((chip_lookup_spec envD stD demoW
      (str "/sys/class/hwmon/hwmon0")).1 stD [] rfl).1,
   ((chip_lookup_spec envD stD demoW
      (str "/sys/class/hwmon/hwmon0")).2.2.1 chip0Rec).2
     ⟨[], [], rfl, by decide, by simp⟩,
   ((chip_lookup_spec envD stD demoW (str "/nonexistent")).2.2.2.1).2
     (by decide),
   (chip_lookup_spec envD stD demoW []).2.2.2.2 chip0Rec
     (str "temp1_input") (by decide) (by decide)⟩

end Sensors
